import Mathlib

/-
Verification of the AI request orchestration core of nanogen-studio
(`src/services/ai-core.ts`): error classification, retry orchestration,
request assembly, response normalization, and the video-job poll loop.

The service code is shallowly embedded: each JavaScript function becomes a
Lean definition that mirrors its control flow.  Network effects are made
explicit by passing the outcome of every attempt (and every poll re-fetch)
as a function argument; randomized backoff jitter is an arbitrary
`Nat → Nat` sample sequence.
-/

set_option autoImplicit false

namespace AICore

/-! ## String helpers

JavaScript `String.prototype.includes` / `toLowerCase`, embedded as
structurally recursive functions on the character list so that concrete
instances reduce inside the kernel. -/

/-- Whether the pattern (second argument) is a prefix of the first list. -/
def seqStartsWith : List Char → List Char → Bool
  | _, [] => true
  | [], _ :: _ => false
  | a :: as, b :: bs => a == b && seqStartsWith as bs

/-- Whether the pattern (second argument) occurs contiguously in the first list. -/
def seqContains : List Char → List Char → Bool
  | [], pat => pat.isEmpty
  | a :: as, pat => seqStartsWith (a :: as) pat || seqContains as pat

/-- JavaScript `s.includes(sub)`. -/
def strIncludes (s sub : String) : Bool :=
  seqContains s.data sub.data

/-- JavaScript `s.toLowerCase()` (the source only matches ASCII patterns). -/
def lowerStr (s : String) : String :=
  String.mk (s.data.map Char.toLower)

/-! ## Error taxonomy

`src/shared/utils/errors.ts` is referenced throughout the source
(`AppError`, `ApiError`, `AuthenticationError`, `SafetyError`,
`RateLimitError`) but the file itself is not in the tree. -/

/-- Modelled from the spec: the error classes of the missing
`src/shared/utils/errors.ts`.  Section 3 of the spec defines
`ClassifiedError` as a tagged union carrying a human-readable message and,
where applicable, an HTTP-status-like numeric code; section 9 allows a
typed error hierarchy.  `apiError` is the only variant with a status code,
matching every `new ApiError(message, statusCode)` construction site in
`src/services/ai-core.ts`. -/
inductive AppError where
  | apiError (message : String) (statusCode : Nat)
  | authenticationError (message : String)
  | safetyError (message : String)
  | rateLimitError (message : String)
deriving Repr, DecidableEq

/-- Whether an error is an `AuthenticationError`. -/
def isAuthError : AppError → Bool
  | AppError.authenticationError _ => true
  | _ => false

/-- A raw failure reaching `normalizeError`: either an arbitrary thrown
value (message text plus optional numeric status, mirroring
`error?.message` and `error?.status || error?.response?.status`), or an
already-classified `AppError` instance. -/
inductive RawFailure where
  | raw (message : String) (status : Option Nat)
  | app (e : AppError)
deriving Repr, DecidableEq

/-- Modelled from the spec: the default `RateLimitError` message lives in
the missing `src/shared/utils/errors.ts`; the comment at
`src/services/ai-core.ts:82` quotes it as "Generation throughput
exceeded...". -/
def rateLimitDefaultMessage : String :=
  "Generation throughput exceeded. Please wait a moment and retry."

/-- `src/services/ai-core.ts:61`. -/
def apiKeyMissingMessage : String :=
  "API_KEY_MISSING: Environment key unavailable. Please check your .env configuration."

/-- `src/services/ai-core.ts:87`. -/
def invalidApiKeyMessage : String :=
  "INVALID_API_KEY: The provided API key is invalid or expired. Please update your credentials."

/-- `src/services/ai-core.ts:92`. -/
def billingRequiredMessage : String :=
  "BILLING_REQUIRED: The Google Cloud Project for this key needs billing enabled."

/-- `src/services/ai-core.ts:95`. -/
def geoRestrictionMessage : String :=
  "GEO_RESTRICTION: Google Gemini is not available in your current region."

/-- `src/services/ai-core.ts:97`. -/
def accessDeniedMessage : String :=
  "ACCESS_DENIED: API access prohibited. Check project permissions."

/-- `src/services/ai-core.ts:102`. -/
def safetyViolationMessage : String :=
  "SAFETY_VIOLATION: The prompt or input image triggered safety filters. Try simplifying your request."

/-- `src/services/ai-core.ts:107`. -/
def modelUnavailableMessage : String :=
  "MODEL_UNAVAILABLE: The requested AI model version is not found or deprecated."

/-- `src/services/ai-core.ts:112`. -/
def systemOverloadMessage : String :=
  "SYSTEM_OVERLOAD: Google AI servers are experiencing high traffic. Please retry in a moment."

/-- `src/services/ai-core.ts:117`. -/
def networkErrorMessage : String :=
  "NETWORK_ERROR: Unable to connect to Google AI services. Please check your internet connection."

/-- `src/services/ai-core.ts:122`. -/
def invalidImageMessage : String :=
  "INVALID_IMAGE: The provided image format or size is not supported."

/-- `src/services/ai-core.ts:123`. -/
def invalidRequestMessage : String :=
  "INVALID_REQUEST: The request parameters are invalid. Check your prompt or configuration."

/-- `src/services/ai-core.ts:297`. -/
def zeroCandidatesMessage : String :=
  "ZERO_CANDIDATES: The model returned no results. Try adjusting your prompt."

/-- `src/services/ai-core.ts:249`. -/
def timeoutMessage : String :=
  "TIMEOUT: Video generation took too long."

/-- `src/services/ai-core.ts:303`. -/
def generationBlockedMessage : String :=
  "GENERATION_BLOCKED: Content flagged by safety filters. Avoid restricted topics or imagery."

/-- `src/services/ai-core.ts:306`. -/
def copyrightBlockMessage : String :=
  "COPYRIGHT_BLOCK: Content matched protected intellectual property."

/-- `src/services/ai-core.ts:309`. -/
def generationFailedMessage : String :=
  "GENERATION_FAILED: Unknown model error occurred."

/-- `error?.message || error?.toString() || "Unknown error"`
(`src/services/ai-core.ts:76`): an empty message falls back to the default. -/
def rawMessageOf (message : String) : String :=
  if message == "" then "Unknown error" else message

/-- `status || 500` (`src/services/ai-core.ts:126`): both a missing status
and a zero status (falsy in JavaScript) fall back to 500. -/
def statusOr500 : Option Nat → Nat
  | none => 500
  | some s => if s == 0 then 500 else s

/-- `normalizeError` (`src/services/ai-core.ts:72-127`): maps a raw failure
to a classified `AppError` by the source's first-match-wins cascade; an
already-classified `AppError` is returned unchanged (line 73). -/
def normalizeError : RawFailure → AppError
  | RawFailure.app e => e
  | RawFailure.raw message status =>
    let rawMessage := rawMessageOf message
    let lowerMsg := lowerStr rawMessage
    if status == some 429 || strIncludes lowerMsg "429" || strIncludes lowerMsg "quota" ||
        strIncludes lowerMsg "exhausted" then
      AppError.rateLimitError rateLimitDefaultMessage
    else if status == some 401 || strIncludes lowerMsg "api key" ||
        strIncludes lowerMsg "unauthenticated" then
      AppError.authenticationError invalidApiKeyMessage
    else if status == some 403 || strIncludes lowerMsg "permission denied" then
      if strIncludes lowerMsg "billing" then
        AppError.authenticationError billingRequiredMessage
      else if strIncludes lowerMsg "location" || strIncludes lowerMsg "region" then
        AppError.authenticationError geoRestrictionMessage
      else
        AppError.authenticationError accessDeniedMessage
    else if strIncludes lowerMsg "safety" || strIncludes lowerMsg "blocked" ||
        strIncludes lowerMsg "harmful" then
      AppError.safetyError safetyViolationMessage
    else if status == some 404 || strIncludes lowerMsg "not found" then
      AppError.apiError modelUnavailableMessage 404
    else if status == some 500 || status == some 502 || status == some 503 ||
        status == some 504 || strIncludes lowerMsg "overloaded" ||
        strIncludes lowerMsg "busy" || strIncludes lowerMsg "capacity" then
      AppError.apiError systemOverloadMessage 503
    else if strIncludes lowerMsg "fetch" || strIncludes lowerMsg "network" ||
        strIncludes lowerMsg "connection" then
      AppError.apiError networkErrorMessage 0
    else if status == some 400 || strIncludes lowerMsg "invalid argument" then
      if strIncludes lowerMsg "image" then
        AppError.apiError invalidImageMessage 400
      else
        AppError.apiError invalidRequestMessage 400
    else
      AppError.apiError ("GENAI_ERROR: " ++ rawMessage) (statusOr500 status)

/-- The non-retryable test of `generate` (`src/services/ai-core.ts:151-155`):
`SafetyError`, `AuthenticationError`, or an `ApiError` whose status code is
in `[400, 500)` and is not 429. -/
def shortCircuits : AppError → Bool
  | AppError.safetyError _ => true
  | AppError.authenticationError _ => true
  | AppError.apiError _ statusCode =>
      decide (400 ≤ statusCode) && decide (statusCode < 500) && decide (statusCode ≠ 429)
  | AppError.rateLimitError _ => false

/-! ## Request model -/

/-- `AIRequestConfig` (`src/services/ai-core.ts:18-30`).  `model` is kept as
a string, as in the source's union of string literals; `temperature` is a
non-algorithmic passthrough and is omitted. -/
structure AIRequestConfig where
  model : String
  aspectRatio : Option String
  imageSize : Option String
  thinkingBudget : Option Nat
  maxOutputTokens : Option Nat
  useSearch : Bool
  systemInstruction : Option String
  responseMimeType : Option String
  maxRetries : Option Nat
  seed : Option Nat
deriving Repr, DecidableEq

/-- Modelled from the spec: `cleanBase64` lives in the missing
`src/shared/utils/image.ts`; the spec only requires that each image payload
contribute its raw bytes, so the payload string is carried through
unchanged. -/
def cleanBase64 (img : String) : String := img

/-- Modelled from the spec: `getMimeType` lives in the missing
`src/shared/utils/image.ts`; the spec only requires that each image payload
carry a declared media type, so a fixed PNG declaration is used. -/
def getMimeType (_img : String) : String := "image/png"

/-- A request content part (`Part` of the provider SDK): either inline
binary data with a media type, or text. -/
inductive RequestPart where
  | inlineData (data : String) (mimeType : String)
  | text (s : String)
deriving Repr, DecidableEq

/-- The inline payload of a part, if any. -/
def partInline : RequestPart → Option (String × String)
  | RequestPart.inlineData d m => some (d, m)
  | RequestPart.text _ => none

/-- The text payload of a part, if any. -/
def partText : RequestPart → Option String
  | RequestPart.inlineData _ _ => none
  | RequestPart.text s => some s

/-- Payload assembly of `executeRequest` (`src/services/ai-core.ts:177-180`):
`images.filter(Boolean)` keeps only non-empty image strings, each becomes an
inline-data part, then one text part is pushed, defaulting when the prompt
is empty (falsy). -/
def buildParts (prompt : String) (images : List String) : List RequestPart :=
  (images.filter (fun img => img != "")).map
      (fun img => RequestPart.inlineData (cleanBase64 img) (getMimeType img))
    ++ [RequestPart.text (if prompt == "" then "Analyze input assets." else prompt)]

/-- The `maxOutputTokens` field of the generation config assembled by
`executeRequest` (`src/services/ai-core.ts:189-201`): with a thinking
budget set (`!== undefined`), a truthy `maxOutputTokens` is raised to at
least `budget + 1024`, otherwise it defaults to `budget + 2048`; with no
thinking budget, a truthy `maxOutputTokens` passes through and a falsy one
leaves the field unset. -/
def effectiveMaxOutputTokens (config : AIRequestConfig) : Option Nat :=
  match config.thinkingBudget with
  | some budget =>
    match config.maxOutputTokens with
    | some m => if m != 0 then some (max m (budget + 1024)) else some (budget + 2048)
    | none => some (budget + 2048)
  | none =>
    match config.maxOutputTokens with
    | some m => if m != 0 then some m else none
    | none => none

/-! ## Response model -/

/-- Inline image bytes of a response part. -/
structure InlineData where
  data : String
  mimeType : String
deriving Repr, DecidableEq

/-- A response content part; only its optional inline data is inspected by
`parseResponse`. -/
structure RespPart where
  inlineData : Option InlineData
deriving Repr, DecidableEq

/-- One generated candidate.  A missing `content` object is represented by
an empty `parts` list (in both cases `find` locates no inline part). -/
structure Candidate where
  finishReason : Option String
  parts : List RespPart
  groundingChunks : Option (List String)
deriving Repr, DecidableEq

/-- The raw provider response consumed by `parseResponse`:
`promptFeedback?.blockReason`, the candidate list, and the SDK's aggregated
`text` accessor. -/
structure GenerateContentResponse where
  promptFeedbackBlockReason : Option String
  candidates : List Candidate
  text : Option String
deriving Repr, DecidableEq

/-- `AIResponse` (`src/services/ai-core.ts:32-37`). -/
structure AIResponse where
  text : Option String
  image : Option String
  groundingSources : Option (List String)
  finishReason : Option String
deriving Repr, DecidableEq

/-- The abnormal finish reason test of `parseResponse`
(`src/services/ai-core.ts:301`): present (and truthy) and neither STOP nor
MAX_TOKENS. -/
def abnormalReason : Option String → Option String
  | some fr => if fr != "" && fr != "STOP" && fr != "MAX_TOKENS" then some fr else none
  | none => none

/-- `parseResponse` (`src/services/ai-core.ts:288-326`). -/
def parseResponse (response : GenerateContentResponse) : Except AppError AIResponse :=
  match response.promptFeedbackBlockReason with
  | some reason => Except.error (AppError.safetyError ("PROMPT_BLOCKED: " ++ reason))
  | none =>
    match response.candidates.head? with
    | none => Except.error (AppError.apiError zeroCandidatesMessage 500)
    | some candidate =>
      match abnormalReason candidate.finishReason with
      | some fr =>
        if fr == "SAFETY" then Except.error (AppError.safetyError generationBlockedMessage)
        else if fr == "RECITATION" then Except.error (AppError.safetyError copyrightBlockMessage)
        else if fr == "OTHER" then Except.error (AppError.apiError generationFailedMessage 500)
        else Except.error (AppError.apiError ("GENERATION_STOPPED: " ++ fr) 500)
      | none =>
        let base : AIResponse :=
          { text := response.text, image := none,
            groundingSources := candidate.groundingChunks,
            finishReason := candidate.finishReason }
        match candidate.parts.find? (fun p => p.inlineData.isSome) with
        | some p =>
          match p.inlineData with
          | some d =>
            if d.data != "" then
              Except.ok { base with image := some ("data:image/png;base64," ++ d.data) }
            else Except.ok base
          | none => Except.ok base
        | none => Except.ok base

/-- Lifts a provider response into the outcome of one `executeRequest`
attempt: a parse failure is thrown as an (already-classified) `AppError`. -/
def attemptOfResponse (response : GenerateContentResponse) : Except RawFailure AIResponse :=
  match parseResponse response with
  | Except.ok r => Except.ok r
  | Except.error e => Except.error (RawFailure.app e)

/-! ## Retry orchestrator (`generate`) -/

/-- `DEFAULT_RETRIES` (`src/services/ai-core.ts:47`). -/
def DEFAULT_RETRIES : Nat := 3

/-- `config.maxRetries ?? this.DEFAULT_RETRIES` (`src/services/ai-core.ts:137`). -/
def resolveRetries (maxRetries : Option Nat) : Nat :=
  maxRetries.getD DEFAULT_RETRIES

/-- The trace of one `generate` call: its outcome, the number of attempts
performed, and the backoff delays (in milliseconds) slept between
consecutive attempts. -/
structure GenTrace where
  result : Except AppError AIResponse
  attempts : Nat
  delays : List Nat
deriving Repr

/-- The body of one attempt up to the first throw: `getApiKey`
(`src/services/ai-core.ts:59-63`) throws `AuthenticationError` when the
environment key is absent; otherwise the attempt's outcome is the supplied
one. -/
def attemptOutcome (env : Option String) (outcome : Nat → Except RawFailure AIResponse)
    (attempt : Nat) : Except RawFailure AIResponse :=
  match env with
  | none => Except.error (RawFailure.app (AppError.authenticationError apiKeyMissingMessage))
  | some _ => outcome attempt

/-- The retry loop of `generate` (`src/services/ai-core.ts:140-168`),
unrolled over `remaining` (the number of loop iterations left, i.e.
`retries - attempt + 1`).  On failure the error is classified; a
short-circuiting error is thrown at once; otherwise, if iterations remain,
the loop sleeps `2^attempt * 1000 + jitter attempt` milliseconds and
continues; when iterations are exhausted the last classified error is
thrown.  The `remaining = 0` case is unreachable from `generateRun`, which
always enters the loop (mirroring that the source's trailing
`throw lastError` only runs after at least one failed attempt). -/
def generateAux (env : Option String) (outcome : Nat → Except RawFailure AIResponse)
    (jitter : Nat → Nat) : Nat → Nat → GenTrace
  | _, 0 => { result := Except.error (AppError.apiError "LOOP_NOT_ENTERED" 500),
              attempts := 0, delays := [] }
  | attempt, remaining + 1 =>
    match attemptOutcome env outcome attempt with
    | Except.ok r => { result := Except.ok r, attempts := 1, delays := [] }
    | Except.error rawErr =>
      let normalized := normalizeError rawErr
      if shortCircuits normalized then
        { result := Except.error normalized, attempts := 1, delays := [] }
      else
        match remaining with
        | 0 => { result := Except.error normalized, attempts := 1, delays := [] }
        | rem + 1 =>
          let rest := generateAux env outcome jitter (attempt + 1) (rem + 1)
          { result := rest.result, attempts := rest.attempts + 1,
            delays := (2 ^ attempt * 1000 + jitter attempt) :: rest.delays }

/-- `generate` (`src/services/ai-core.ts:132-169`), with the per-attempt
network outcome and the jitter samples passed explicitly. -/
def generateRun (env : Option String) (outcome : Nat → Except RawFailure AIResponse)
    (jitter : Nat → Nat) (maxRetries : Option Nat) : GenTrace :=
  generateAux env outcome jitter 0 (resolveRetries maxRetries + 1)

/-! ## Async job poller (`generateVideo`) -/

/-- The observable state of a video operation: its `done` flag and the
nested `response?.generatedVideos?.[0]?.video?.uri`, flattened to one
optional string. -/
structure VideoOperation where
  done : Bool
  resultUri : Option String
deriving Repr, DecidableEq

/-- The trace of the polling phase of one `generateVideo` call: its
outcome, the number of `getVideosOperation` re-fetches, and the number of
5000 ms poll sleeps. -/
structure PollTrace where
  result : Except AppError (Option String)
  fetches : Nat
  sleeps : Nat
deriving Repr

/-- `MAX_POLLS` (`src/services/ai-core.ts:245`). -/
def MAX_POLLS : Nat := 60

/-- Result extraction on completion (`src/services/ai-core.ts:254-258`): a
truthy URI is returned with `&key=` and the API key appended; a missing (or
empty, hence falsy) URI yields `null`. -/
def extractVideoUri (op : VideoOperation) (apiKey : String) : Option String :=
  match op.resultUri with
  | some uri => if uri != "" then some (uri ++ "&key=" ++ apiKey) else none
  | none => none

/-- The polling loop of `generateVideo` (`src/services/ai-core.ts:244-258`):
`while (!operation.done) { if (polls++ > MAX_POLLS) throw TIMEOUT; sleep;
re-fetch }`, followed by URI extraction.  `ops k` is the operation state
after `k` re-fetches (`ops 0` is the submission result).  `fuel` only bounds
the unrolling; it is unreachable from `generateVideoRun`, whose fuel exceeds
the worst case of 62 iterations enforced by the poll counter. -/
def videoPollAux (ops : Nat → VideoOperation) (apiKey : String) :
    Nat → Nat → Nat → PollTrace
  | _, _, 0 => { result := Except.error (AppError.apiError "POLL_FUEL_EXHAUSTED" 500),
                 fetches := 0, sleeps := 0 }
  | k, polls, fuel + 1 =>
    if (ops k).done then
      { result := Except.ok (extractVideoUri (ops k) apiKey), fetches := 0, sleeps := 0 }
    else if MAX_POLLS < polls then
      { result := Except.error (AppError.apiError timeoutMessage 408), fetches := 0, sleeps := 0 }
    else
      let rest := videoPollAux ops apiKey (k + 1) (polls + 1) fuel
      { result := rest.result, fetches := rest.fetches + 1, sleeps := rest.sleeps + 1 }

/-- `generateVideo` (`src/services/ai-core.ts:225-263`) from submission
onward: a missing environment key throws `AuthenticationError` (re-thrown
unchanged by the catch-all `normalizeError`); otherwise the poll loop runs
against the supplied operation-state sequence. -/
def generateVideoRun (env : Option String) (ops : Nat → VideoOperation) : PollTrace :=
  match env with
  | none => { result := Except.error (AppError.authenticationError apiKeyMissingMessage),
              fetches := 0, sleeps := 0 }
  | some apiKey => videoPollAux ops apiKey 0 0 63

/-! ## Concrete instances used by the claims -/

/-- A request configuration with the given token budgets and all other
options left at their unset defaults. -/
def mkConfig (thinkingBudget maxOutputTokens : Option Nat) : AIRequestConfig :=
  { model := "gemini-3-pro-preview", aspectRatio := none, imageSize := none,
    thinkingBudget := thinkingBudget, maxOutputTokens := maxOutputTokens,
    useSearch := false, systemInstruction := none, responseMimeType := none,
    maxRetries := none, seed := none }

/-- A successful provider response carrying zero candidates. -/
def zeroCandidatesResponse : GenerateContentResponse :=
  { promptFeedbackBlockReason := none, candidates := [], text := none }

/-- A video-operation sequence that never reports done. -/
def neverDoneOps : Nat → VideoOperation :=
  fun _ => { done := false, resultUri := none }

/-! ## Helper lemmas -/

theorem range_map_shift (f : Nat → Nat) (n a : Nat) :
    (List.range (n + 1)).map (fun i => f (a + i)) =
      f a :: (List.range n).map (fun i => f (a + 1 + i)) := by
  rw [List.range_succ_eq_map, List.map_cons, List.map_map]
  congr 1
  refine List.map_congr_left ?_
  intro i _
  simp only [Function.comp_apply]
  congr 1
  omega

/-- Behaviour of the retry loop when every attempt fails with a
non-short-circuiting error: all iterations run, each intermediate one
sleeping its backoff delay, and the last classified error is thrown. -/
theorem generateAux_allFail (key : String) (outcome : Nat → Except RawFailure AIResponse)
    (jitter : Nat → Nat) (err : Nat → RawFailure)
    (hout : ∀ i, outcome i = Except.error (err i))
    (hsc : ∀ i, shortCircuits (normalizeError (err i)) = false) :
    ∀ r a, generateAux (some key) outcome jitter a (r + 1) =
      { result := Except.error (normalizeError (err (a + r))), attempts := r + 1,
        delays := (List.range r).map (fun i => 2 ^ (a + i) * 1000 + jitter (a + i)) } := by
  intro r
  induction r with
  | zero =>
    intro a
    rw [generateAux]
    simp [attemptOutcome, hout a, hsc a]
  | succ n ih =>
    intro a
    have h1 := ih (a + 1)
    rw [generateAux]
    simp only [attemptOutcome, hout a]
    simp only [hsc a, if_neg, Bool.false_eq_true, not_false_eq_true]
    rw [h1]
    have e : a + 1 + n = a + (n + 1) := by omega
    rw [e, range_map_shift (fun j => 2 ^ j * 1000 + jitter j) n a]

/-- `generate` with `maxRetries = r` and every attempt failing with a
non-short-circuiting error performs `r + 1` attempts, sleeps
`2^i * 1000 + jitter i` after attempt `i` for `i < r`, and throws the last
classified error. -/
theorem generateRun_allFail (key : String) (outcome : Nat → Except RawFailure AIResponse)
    (jitter : Nat → Nat) (err : Nat → RawFailure) (r : Nat)
    (hout : ∀ i, outcome i = Except.error (err i))
    (hsc : ∀ i, shortCircuits (normalizeError (err i)) = false) :
    generateRun (some key) outcome jitter (some r) =
      { result := Except.error (normalizeError (err r)), attempts := r + 1,
        delays := (List.range r).map (fun i => 2 ^ i * 1000 + jitter i) } := by
  have h := generateAux_allFail key outcome jitter err hout hsc r 0
  simp only [Nat.zero_add] at h
  exact h

/-- `generate` throws at once, after a single attempt and with no backoff
sleep, when the first failure classifies as short-circuiting. -/
theorem generateRun_shortCircuit (key : String)
    (outcome : Nat → Except RawFailure AIResponse) (jitter : Nat → Nat)
    (mr : Option Nat) (rawErr : RawFailure)
    (h0 : outcome 0 = Except.error rawErr)
    (hsc : shortCircuits (normalizeError rawErr) = true) :
    generateRun (some key) outcome jitter mr =
      { result := Except.error (normalizeError rawErr), attempts := 1, delays := [] } := by
  unfold generateRun
  rw [generateAux]
  simp [attemptOutcome, h0, hsc]

/-- `generate` with no environment key throws `AuthenticationError` on the
first attempt, with no retry and no sleep, for every `maxRetries`. -/
theorem generateRun_missingKey (outcome : Nat → Except RawFailure AIResponse)
    (jitter : Nat → Nat) (mr : Option Nat) :
    generateRun none outcome jitter mr =
      { result := Except.error (AppError.authenticationError apiKeyMissingMessage),
        attempts := 1, delays := [] } := by
  unfold generateRun
  rw [generateAux]
  simp [attemptOutcome, normalizeError, shortCircuits]

/-- The short-circuit test on an `ApiError`, in propositional form. -/
theorem shortCircuits_apiError (m : String) (c : Nat) :
    shortCircuits (AppError.apiError m c) = true ↔ (400 ≤ c ∧ c < 500 ∧ c ≠ 429) := by
  simp [shortCircuits, Bool.and_eq_true, decide_eq_true_eq, and_assoc]

theorem filterMap_partInline_map (l : List String) :
    (l.map (fun img => RequestPart.inlineData (cleanBase64 img) (getMimeType img))).filterMap
        partInline =
      l.map (fun img => (cleanBase64 img, getMimeType img)) := by
  induction l with
  | nil => rfl
  | cons a as ih => simp [partInline, ih]

theorem filterMap_partText_map (l : List String) :
    (l.map (fun img => RequestPart.inlineData (cleanBase64 img) (getMimeType img))).filterMap
        partText = [] := by
  induction l with
  | nil => rfl
  | cons a as ih => simp [partText, ih]

/-- When the operation never reports done, the poll loop started at counter
`p` with `p + q = 61` performs exactly `q` further re-fetches (and sleeps)
and then times out. -/
theorem videoPollAux_neverDone (ops : Nat → VideoOperation) (key : String)
    (h : ∀ k, (ops k).done = false) :
    ∀ q k p f, p + q = 61 → q + 1 ≤ f →
      videoPollAux ops key k p f =
        { result := Except.error (AppError.apiError timeoutMessage 408),
          fetches := q, sleeps := q } := by
  intro q
  induction q with
  | zero =>
    intro k p f hp hf
    obtain ⟨g, rfl⟩ : ∃ g, f = g + 1 := ⟨f - 1, by omega⟩
    have hp61 : p = 61 := by omega
    subst hp61
    rw [videoPollAux]
    simp [h k, MAX_POLLS]
  | succ n ih =>
    intro k p f hp hf
    obtain ⟨g, rfl⟩ : ∃ g, f = g + 1 := ⟨f - 1, by omega⟩
    rw [videoPollAux]
    have hnp : ¬ (MAX_POLLS < p) := by simp only [MAX_POLLS]; omega
    rw [if_neg (by simp [h k]), if_neg hnp]
    rw [ih (k + 1) (p + 1) g (by omega) (by omega)]

/-- Any successful result of the poll loop is the URI extraction of some
operation state that reported done. -/
theorem videoPollAux_ok (ops : Nat → VideoOperation) (key : String) :
    ∀ f k p s, (videoPollAux ops key k p f).result = Except.ok s →
      ∃ j, (ops j).done = true ∧ s = extractVideoUri (ops j) key := by
  intro f
  induction f with
  | zero =>
    intro k p s hh
    simp [videoPollAux] at hh
  | succ g ih =>
    intro k p s hh
    rw [videoPollAux] at hh
    by_cases hd : (ops k).done
    · rw [if_pos hd] at hh
      simp only [Except.ok.injEq] at hh
      exact ⟨k, hd, hh.symm⟩
    · rw [if_neg hd] at hh
      by_cases hp : MAX_POLLS < p
      · rw [if_pos hp] at hh
        simp at hh
      · rw [if_neg hp] at hh
        exact ih (k + 1) (p + 1) s hh

/-! ## Claims -/

/-- C1: for every config with `thinkingBudget` set, the request assembled by
the executor carries an effective `maxOutputTokens` equal to
`max(maxOutputTokens, thinkingBudget + 1024)` when `maxOutputTokens` is set
(to a positive value, as the data model requires), and
`thinkingBudget + 2048` when it is unset; in particular budget 1000 with no
`maxOutputTokens` yields 3048, and budget 1000 with `maxOutputTokens` 500
yields 2024. -/
theorem claim_C1_effective_output_budget (config : AIRequestConfig) (budget : Nat)
    (hb : config.thinkingBudget = some budget) :
    (∀ m, config.maxOutputTokens = some m → 0 < m →
        effectiveMaxOutputTokens config = some (max m (budget + 1024))) ∧
    (config.maxOutputTokens = none →
        effectiveMaxOutputTokens config = some (budget + 2048)) ∧
    effectiveMaxOutputTokens (mkConfig (some 1000) none) = some 3048 ∧
    effectiveMaxOutputTokens (mkConfig (some 1000) (some 500)) = some 2024 := by
  refine ⟨?_, ?_, rfl, rfl⟩
  · intro m hm hpos
    have hne : m ≠ 0 := by omega
    simp [effectiveMaxOutputTokens, hb, hm, hne]
  · intro hm
    simp [effectiveMaxOutputTokens, hb, hm]

/-- C1 witness: the budget-1000 / maxOutputTokens-500 instance. -/
theorem claim_C1_witness :
    effectiveMaxOutputTokens (mkConfig (some 1000) (some 500)) =
      some (max 500 (1000 + 1024)) :=
  (claim_C1_effective_output_budget (mkConfig (some 1000) (some 500)) 1000 rfl).1
    500 rfl (by omega)

/-- C6: the classifier is idempotent — classifying an already-classified
error returns it unchanged (same kind, message and code), so
`classify (classify x) = classify x` for every input. -/
theorem claim_C6_classify_idempotent :
    ∀ x : RawFailure,
      normalizeError (RawFailure.app (normalizeError x)) = normalizeError x ∧
      ∀ e : AppError, normalizeError (RawFailure.app e) = e :=
  fun _ => ⟨rfl, fun _ => rfl⟩

/-- C7 counterexample: a status-403 failure whose message contains
"billing" but also "quota" is classified `RateLimitError` by the earlier
quota rule, not `AuthenticationFailed` with the billing message. -/
theorem claim_C7_counterexample :
    normalizeError (RawFailure.raw "Billing quota exceeded" (some 403)) =
      AppError.rateLimitError rateLimitDefaultMessage ∧
    isAuthError (normalizeError (RawFailure.raw "Billing quota exceeded" (some 403))) =
      false :=
  ⟨rfl, rfl⟩

/-- C7 amended: for every raw failure with status 403 whose message
contains "billing" and does not contain any substring matched by an earlier
classifier rule ("429", "quota", "exhausted", "api key",
"unauthenticated"), classification returns `AuthenticationFailed` with the
billing-specific message. -/
theorem claim_C7_billing_message (message : String)
    (hbil : strIncludes (lowerStr (rawMessageOf message)) "billing" = true)
    (h429 : strIncludes (lowerStr (rawMessageOf message)) "429" = false)
    (hquo : strIncludes (lowerStr (rawMessageOf message)) "quota" = false)
    (hexh : strIncludes (lowerStr (rawMessageOf message)) "exhausted" = false)
    (hkey : strIncludes (lowerStr (rawMessageOf message)) "api key" = false)
    (hun : strIncludes (lowerStr (rawMessageOf message)) "unauthenticated" = false) :
    normalizeError (RawFailure.raw message (some 403)) =
      AppError.authenticationError billingRequiredMessage := by
  simp [normalizeError, hbil, h429, hquo, hexh, hkey, hun]

/-- C7 witness: a 403 with message "billing disabled" resolves to the
billing-specific `AuthenticationFailed`. -/
theorem claim_C7_witness :
    normalizeError (RawFailure.raw "billing disabled" (some 403)) =
      AppError.authenticationError billingRequiredMessage :=
  claim_C7_billing_message "billing disabled" rfl rfl rfl rfl rfl rfl

/-- C2 counterexample: a failure classifying as `ModelUnavailable`
(`ApiError` with code 404) is thrown after a single attempt even with
`maxRetries = 2` — it is not retried as the claim states. -/
theorem claim_C2_counterexample :
    normalizeError (RawFailure.raw "" (some 404)) =
      AppError.apiError modelUnavailableMessage 404 ∧
    (generateRun (some "key") (fun _ => Except.error (RawFailure.raw "" (some 404)))
        (fun _ => 0) (some 2)).attempts = 1 ∧
    ¬ (generateRun (some "key") (fun _ => Except.error (RawFailure.raw "" (some 404)))
        (fun _ => 0) (some 2)).attempts = 3 ∧
    (generateRun (some "key") (fun _ => Except.error (RawFailure.raw "" (some 404)))
        (fun _ => 0) (some 2)).delays = [] :=
  ⟨rfl, rfl, by decide, rfl⟩

/-- C2 amended: `generate` retries (up to `maxRetries` additional attempts)
failures classified `RateLimited`, and classified `ApiError`s whose status
code is below 400, at least 500, or equal to 429 — covering
`ServerOverloaded` (503), `NetworkUnreachable` (0) and `Unknown` (500);
`AuthenticationFailed` and `SafetyBlocked` short-circuit without retry, as
does any classified `ApiError` with a 4xx code other than 429 — including
`ModelUnavailable` (404) and `InvalidRequest` (400). -/
theorem claim_C2_retry_policy (key : String) (jitter : Nat → Nat) (r : Nat)
    (rawA rawB rawC rawD rawE : RawFailure)
    (mA mB mC mD mE : String) (cB cC : Nat)
    (hA : normalizeError rawA = AppError.rateLimitError mA)
    (hB : normalizeError rawB = AppError.apiError mB cB)
    (hcB : cB < 400 ∨ 500 ≤ cB ∨ cB = 429)
    (hC : normalizeError rawC = AppError.apiError mC cC)
    (hcC : 400 ≤ cC ∧ cC < 500 ∧ cC ≠ 429)
    (hD : normalizeError rawD = AppError.authenticationError mD)
    (hE : normalizeError rawE = AppError.safetyError mE) :
    (generateRun (some key) (fun _ => Except.error rawA) jitter (some r)).attempts = r + 1 ∧
    (generateRun (some key) (fun _ => Except.error rawA) jitter (some r)).result =
      Except.error (AppError.rateLimitError mA) ∧
    (generateRun (some key) (fun _ => Except.error rawB) jitter (some r)).attempts = r + 1 ∧
    (generateRun (some key) (fun _ => Except.error rawB) jitter (some r)).result =
      Except.error (AppError.apiError mB cB) ∧
    (generateRun (some key) (fun _ => Except.error rawC) jitter (some r)).attempts = 1 ∧
    (generateRun (some key) (fun _ => Except.error rawD) jitter (some r)).attempts = 1 ∧
    (generateRun (some key) (fun _ => Except.error rawE) jitter (some r)).attempts = 1 := by
  have hscA : shortCircuits (normalizeError rawA) = false := by rw [hA]; rfl
  have hscB : shortCircuits (normalizeError rawB) = false := by
    rw [hB, Bool.eq_false_iff, Ne, shortCircuits_apiError]
    omega
  have hscC : shortCircuits (normalizeError rawC) = true := by
    rw [hC, shortCircuits_apiError]
    exact hcC
  have hscD : shortCircuits (normalizeError rawD) = true := by rw [hD]; rfl
  have hscE : shortCircuits (normalizeError rawE) = true := by rw [hE]; rfl
  have tA := generateRun_allFail key _ jitter (fun _ => rawA) r (fun _ => rfl) (fun _ => hscA)
  have tB := generateRun_allFail key _ jitter (fun _ => rawB) r (fun _ => rfl) (fun _ => hscB)
  have tC := generateRun_shortCircuit key (fun _ => Except.error rawC) jitter (some r)
    rawC rfl hscC
  have tD := generateRun_shortCircuit key (fun _ => Except.error rawD) jitter (some r)
    rawD rfl hscD
  have tE := generateRun_shortCircuit key (fun _ => Except.error rawE) jitter (some r)
    rawE rfl hscE
  exact ⟨by rw [tA], by rw [tA, hA], by rw [tB], by rw [tB, hB],
    by rw [tC], by rw [tD], by rw [tE]⟩

/-- C2 witness: quota (retried to 3 attempts with `maxRetries = 2`) and
overload (retried) versus 404, invalid-key and safety inputs (one attempt
each). -/
theorem claim_C2_witness :
    (generateRun (some "key") (fun _ => Except.error (RawFailure.raw "quota" none))
        (fun _ => 0) (some 2)).attempts = 3 ∧
    (generateRun (some "key") (fun _ => Except.error (RawFailure.raw "overloaded" none))
        (fun _ => 0) (some 2)).attempts = 3 ∧
    (generateRun (some "key") (fun _ => Except.error (RawFailure.raw "unauthenticated" none))
        (fun _ => 0) (some 2)).attempts = 1 := by
  have h := claim_C2_retry_policy "key" (fun _ => 0) 2
    (RawFailure.raw "quota" none) (RawFailure.raw "overloaded" none)
    (RawFailure.raw "" (some 404)) (RawFailure.raw "unauthenticated" none)
    (RawFailure.raw "safety" none)
    rateLimitDefaultMessage systemOverloadMessage modelUnavailableMessage
    invalidApiKeyMessage safetyViolationMessage 503 404
    rfl rfl (by omega) rfl (by omega) rfl rfl
  exact ⟨h.1, h.2.2.1, h.2.2.2.2.2.1⟩

/-- C3: when the first attempt's failure classifies as
`AuthenticationFailed`, `generate` performs exactly one attempt and throws
it with no backoff sleep, for every `maxRetries`; a missing credential at
resolution time behaves the same way. -/
theorem claim_C3_auth_first_attempt (key : String)
    (outcome outcome2 : Nat → Except RawFailure AIResponse)
    (jitter jitter2 : Nat → Nat) (rawErr : RawFailure) (m : String)
    (h0 : outcome 0 = Except.error rawErr)
    (hclass : normalizeError rawErr = AppError.authenticationError m) :
    ∀ mr : Option Nat,
      generateRun (some key) outcome jitter mr =
        { result := Except.error (AppError.authenticationError m),
          attempts := 1, delays := [] } ∧
      generateRun none outcome2 jitter2 mr =
        { result := Except.error (AppError.authenticationError apiKeyMissingMessage),
          attempts := 1, delays := [] } := by
  intro mr
  constructor
  · have hsc : shortCircuits (normalizeError rawErr) = true := by rw [hclass]; rfl
    rw [generateRun_shortCircuit key outcome jitter mr rawErr h0 hsc, hclass]
  · exact generateRun_missingKey outcome2 jitter2 mr

/-- C3 witness: an invalid-key failure with `maxRetries = 5`, and a missing
environment key with `maxRetries = 5`. -/
theorem claim_C3_witness :
    generateRun (some "key") (fun _ => Except.error (RawFailure.raw "unauthenticated" none))
        (fun _ => 0) (some 5) =
      { result := Except.error (AppError.authenticationError invalidApiKeyMessage),
        attempts := 1, delays := [] } ∧
    generateRun none (fun _ => Except.error (RawFailure.raw "boom" none))
        (fun _ => 0) (some 5) =
      { result := Except.error (AppError.authenticationError apiKeyMissingMessage),
        attempts := 1, delays := [] } :=
  claim_C3_auth_first_attempt "key"
    (fun _ => Except.error (RawFailure.raw "unauthenticated" none))
    (fun _ => Except.error (RawFailure.raw "boom" none))
    (fun _ => 0) (fun _ => 0) (RawFailure.raw "unauthenticated" none)
    invalidApiKeyMessage rfl rfl (some 5)

/-- C4: with `maxRetries = 2` and every attempt failing with a failure that
classifies as `ServerOverloaded`, `generate` performs exactly 3 attempts,
sleeps `2^attempt * 1000` ms plus a jitter in `[0, 500)` ms between
consecutive attempts, and throws the last `ServerOverloaded` error. -/
theorem claim_C4_overload_retry (key : String)
    (outcome : Nat → Except RawFailure AIResponse) (err : Nat → RawFailure)
    (jitter : Nat → Nat)
    (hout : ∀ i, outcome i = Except.error (err i))
    (hclass : ∀ i, normalizeError (err i) = AppError.apiError systemOverloadMessage 503)
    (hj : ∀ i, jitter i < 500) :
    (generateRun (some key) outcome jitter (some 2)).attempts = 3 ∧
    (generateRun (some key) outcome jitter (some 2)).result =
      Except.error (AppError.apiError systemOverloadMessage 503) ∧
    (generateRun (some key) outcome jitter (some 2)).delays =
      [2 ^ 0 * 1000 + jitter 0, 2 ^ 1 * 1000 + jitter 1] ∧
    1000 ≤ 2 ^ 0 * 1000 + jitter 0 ∧ 2 ^ 0 * 1000 + jitter 0 < 1500 ∧
    2000 ≤ 2 ^ 1 * 1000 + jitter 1 ∧ 2 ^ 1 * 1000 + jitter 1 < 2500 := by
  have hsc : ∀ i, shortCircuits (normalizeError (err i)) = false := by
    intro i; rw [hclass i]; rfl
  have t := generateRun_allFail key outcome jitter err 2 hout hsc
  have hj0 := hj 0
  have hj1 := hj 1
  refine ⟨by rw [t], by rw [t, hclass 2], by rw [t]; rfl,
    by omega, by omega, by omega, by omega⟩

/-- C4 witness: three overloaded attempts with zero jitter. -/
theorem claim_C4_witness :
    (generateRun (some "key") (fun _ => Except.error (RawFailure.raw "overloaded" none))
        (fun _ => 0) (some 2)).attempts = 3 ∧
    (generateRun (some "key") (fun _ => Except.error (RawFailure.raw "overloaded" none))
        (fun _ => 0) (some 2)).delays = [1000, 2000] := by
  have h := claim_C4_overload_retry "key"
    (fun _ => Except.error (RawFailure.raw "overloaded" none))
    (fun _ => RawFailure.raw "overloaded" none) (fun _ => 0)
    (fun _ => rfl) (fun _ => rfl) (fun _ => by show (0 : Nat) < 500; decide)
  exact ⟨h.1, h.2.2.1⟩

/-- C5 counterexample: with `maxRetries = 1` and every attempt returning a
zero-candidate response, `generate` performs 2 attempts and sleeps a
backoff delay — the zero-candidate condition consumes retry budget instead
of being terminal on first occurrence. -/
theorem claim_C5_counterexample :
    (generateRun (some "key") (fun _ => attemptOfResponse zeroCandidatesResponse)
        (fun _ => 0) (some 1)).attempts = 2 ∧
    ¬ (generateRun (some "key") (fun _ => attemptOfResponse zeroCandidatesResponse)
        (fun _ => 0) (some 1)).attempts = 1 ∧
    (generateRun (some "key") (fun _ => attemptOfResponse zeroCandidatesResponse)
        (fun _ => 0) (some 1)).delays = [1000] :=
  ⟨rfl, by decide, rfl⟩

/-- C5 amended: a zero-candidate response is thrown as an `ApiError` with
code 500, which the `generate` loop retries exactly like server-overload
failures — consuming retry attempts and backoff delays, and surfacing the
error only once retries are exhausted. -/
theorem claim_C5_zero_candidates_retried (key : String) (jitter : Nat → Nat) :
    parseResponse zeroCandidatesResponse =
      Except.error (AppError.apiError zeroCandidatesMessage 500) ∧
    ∀ r : Nat,
      generateRun (some key) (fun _ => attemptOfResponse zeroCandidatesResponse)
          jitter (some r) =
        { result := Except.error (AppError.apiError zeroCandidatesMessage 500),
          attempts := r + 1,
          delays := (List.range r).map (fun i => 2 ^ i * 1000 + jitter i) } := by
  refine ⟨rfl, ?_⟩
  intro r
  exact generateRun_allFail key (fun _ => attemptOfResponse zeroCandidatesResponse) jitter
    (fun _ => RawFailure.app (AppError.apiError zeroCandidatesMessage 500)) r
    (fun _ => rfl) (fun _ => rfl)

/-- C8 counterexample: when the job never reports done, the poll loop
performs 61 unsuccessful polls (each preceded by a 5000 ms sleep) before
raising the timeout error — not the claimed 60. -/
theorem claim_C8_counterexample :
    (generateVideoRun (some "key") neverDoneOps).fetches = 61 ∧
    ¬ (generateVideoRun (some "key") neverDoneOps).fetches = 60 ∧
    (generateVideoRun (some "key") neverDoneOps).sleeps = 61 ∧
    (generateVideoRun (some "key") neverDoneOps).result =
      Except.error (AppError.apiError timeoutMessage 408) :=
  ⟨rfl, by decide, rfl, rfl⟩

/-- C8 amended: when the submitted job never reports done, the polling loop
performs exactly 61 unsuccessful polls (each preceded by a 5000 ms sleep) —
the post-increment guard `polls++ > MAX_POLLS` passes for counter values 0
through 60 — then terminates by raising the timeout-specific classified
error; it never polls a 62nd time and never loops forever. -/
theorem claim_C8_timeout_after_61 (key : String) (ops : Nat → VideoOperation)
    (h : ∀ k, (ops k).done = false) :
    generateVideoRun (some key) ops =
      { result := Except.error (AppError.apiError timeoutMessage 408),
        fetches := 61, sleeps := 61 } :=
  videoPollAux_neverDone ops key h 61 0 0 63 (by omega) (by omega)

/-- C8 witness: a concrete never-done operation sequence. -/
theorem claim_C8_witness :
    generateVideoRun (some "secret") (fun _ => { done := false, resultUri := some "u" }) =
      { result := Except.error (AppError.apiError timeoutMessage 408),
        fetches := 61, sleeps := 61 } :=
  claim_C8_timeout_after_61 "secret" (fun _ => { done := false, resultUri := some "u" })
    (fun _ => rfl)

/-- C9 counterexample: a supplied empty-string image is dropped by
`images.filter(Boolean)`, so the payload contains no inline-data part for
it — not one part per supplied image. -/
theorem claim_C9_counterexample :
    buildParts "p" [""] = [RequestPart.text "p"] ∧
    ((buildParts "p" [""]).filterMap partInline).length = 0 ∧
    ¬ ((buildParts "p" [""]).filterMap partInline).length = 1 :=
  ⟨rfl, rfl, by decide⟩

/-- C9 amended: the assembled payload contains one inline-data part (bytes
plus media type) per supplied non-empty image, in the order supplied,
followed by exactly one text part whose content is the prompt, or the
default text "Analyze input assets." when the prompt is the empty string;
the text part is the last part. -/
theorem claim_C9_parts_shape (prompt : String) (images : List String) :
    (buildParts prompt images).filterMap partInline =
      (images.filter (fun img => img != "")).map
        (fun img => (cleanBase64 img, getMimeType img)) ∧
    (buildParts prompt images).filterMap partText =
      [if prompt == "" then "Analyze input assets." else prompt] ∧
    (buildParts prompt images).getLast? =
      some (RequestPart.text (if prompt == "" then "Analyze input assets." else prompt)) := by
  refine ⟨?_, ?_, ?_⟩
  · rw [buildParts, List.filterMap_append, filterMap_partInline_map]
    simp [partInline]
  · rw [buildParts, List.filterMap_append, filterMap_partText_map]
    simp [partText]
  · rw [buildParts, List.getLast?_concat]

/-- C10: whenever `generateVideo` completes with a result URI present, the
string returned to the caller is the provider URI with the literal text
"&key=" and the resolved credential secret appended — never the bare URI —
and when the job completes with no (or an empty, hence falsy) URI, null is
returned instead. -/
theorem claim_C10_key_appended (key1 key2 : String)
    (ops1 ops2 : Nat → VideoOperation) (u : String)
    (h1 : (generateVideoRun (some key1) ops1).result = Except.ok (some u))
    (h2 : (generateVideoRun (some key2) ops2).result = Except.ok none) :
    (∃ j v, (ops1 j).done = true ∧ (ops1 j).resultUri = some v ∧
        u = v ++ "&key=" ++ key1 ∧ u ≠ v) ∧
    (∃ j, (ops2 j).done = true ∧
        ((ops2 j).resultUri = none ∨ (ops2 j).resultUri = some "")) := by
  constructor
  · obtain ⟨j, hd, hs⟩ := videoPollAux_ok ops1 key1 63 0 0 (some u) h1
    cases hv : (ops1 j).resultUri with
    | none =>
      rw [extractVideoUri, hv] at hs
      exact absurd hs (by simp)
    | some v =>
      by_cases hne : v = ""
      · rw [extractVideoUri, hv, hne] at hs
        exact absurd hs (by simp)
      · rw [extractVideoUri, hv] at hs
        simp only [bne_iff_ne, Ne, hne, not_false_eq_true, if_true,
          Except.ok.injEq, Option.some.injEq] at hs
        have hu : u = v ++ "&key=" ++ key1 := hs
        refine ⟨j, v, hd, hv, hu, ?_⟩
        intro huv
        have hlen : u.length = v.length + 5 + key1.length := by
          rw [hu, String.length_append, String.length_append]
          rfl
        rw [huv] at hlen
        omega
  · obtain ⟨j, hd, hs⟩ := videoPollAux_ok ops2 key2 63 0 0 none h2
    cases hv : (ops2 j).resultUri with
    | none => exact ⟨j, hd, Or.inl hv⟩
    | some v =>
      by_cases hne : v = ""
      · subst hne
        exact ⟨j, hd, Or.inr hv⟩
      · rw [extractVideoUri, hv] at hs
        simp [hne] at hs

/-- C10 witness: an immediately-done job with URI yields the key-appended
string, and an immediately-done job with no URI yields null. -/
theorem claim_C10_witness :
    (∃ j v, ((fun _ => { done := true, resultUri := some "https://video" } :
          Nat → VideoOperation) j).done = true ∧
        ((fun _ => { done := true, resultUri := some "https://video" } :
          Nat → VideoOperation) j).resultUri = some v ∧
        "https://video&key=K" = v ++ "&key=" ++ "K" ∧ "https://video&key=K" ≠ v) ∧
    (∃ j, ((fun _ => { done := true, resultUri := none } :
          Nat → VideoOperation) j).done = true ∧
        (((fun _ => { done := true, resultUri := none } :
          Nat → VideoOperation) j).resultUri = none ∨
         ((fun _ => { done := true, resultUri := none } :
          Nat → VideoOperation) j).resultUri = some "")) :=
  claim_C10_key_appended "K" "K2"
    (fun _ => { done := true, resultUri := some "https://video" })
    (fun _ => { done := true, resultUri := none })
    "https://video&key=K" rfl rfl

end AICore
